import Mathlib

/-!
A shallow embedding of `src/main.py` (a Tkinter countdown demo): the worker
function `decrement`, and the `Window` coordinator class with its methods
`do_countdown`, `update`, `clear_countdown_label` and `on_close`.

Pure data is modelled directly; the stateful methods become functions from a
`Window` record to a `StepResult` holding the updated record, the ordered list
of external effects the method performed (pipe creation, process spawn, timer
scheduling, join, kill, window destruction), and the uncaught Python exception
if attribute lookup failed partway through the method body.
-/

namespace OopTk

/-- The values sent on `pipe_out` by `decrement(start_num, pipe_out)`, in order:
while `start_num > 0` it decrements and sends the new value, and after the loop
it unconditionally sends `0` once more (line 15 of `main.py`). -/
def decrement : Nat → List Nat
  | 0 => [0]
  | n + 1 => n :: decrement n

/-- Liveness state of the handle stored in `self.countdown_thread`:
a started process is alive, `join()` moves it to joined, `kill()` to killed. -/
inductive HandleStatus where
  | alive
  | joined
  | killed
deriving DecidableEq

/-- `Process.is_alive()` on the stored handle. -/
def HandleStatus.is_alive : HandleStatus → Bool
  | HandleStatus.alive => true
  | _ => false

/-- The callbacks that `main.py` passes to Tkinter `after`. -/
inductive Callback where
  | update
  | clear_countdown_label
deriving DecidableEq

/-- An uncaught Python exception raised during a method body.
`attributeError a` stands for an `AttributeError` on attribute `a`. -/
inductive PyErr where
  | attributeError (attr : String)
deriving DecidableEq

/-- External effects a method performs, in program order. -/
inductive Eff where
  | createPipe
  | spawnProcess (start : Nat)
  | afterMs (ms : Nat) (cb : Callback)
  | joinThread
  | killThread
  | destroyRoot
deriving DecidableEq

/-- The mutable attributes of the `Window` object that the four methods read or
write.  `gui_pipe` is the receiving end of the pipe, modelled as the FIFO list
of messages currently available to `recv`; it is `none` before `do_countdown`
first assigns it.  `parent` models the attribute `self.parent`: `__init__` only
ever assigns `self.root`, so in every reachable state `parent = none`; keeping
the field makes the lookup on line 53 of `main.py` explicit. -/
structure Window where
  countdown_var : String
  countdown_thread : Option HandleStatus
  gui_pipe : Option (List Nat)
  parent : Option Unit
deriving DecidableEq

/-- The `Window` right after `__init__(root)`: a fresh `tk.StringVar()` holds
the empty string, `countdown_thread` is `None`, and neither `gui_pipe` nor
`parent` has ever been assigned. -/
def initWindow : Window :=
  { countdown_var := ""
    countdown_thread := none
    gui_pipe := none
    parent := none }

/-- Outcome of running one method body: the updated object, the effects
performed before the body returned or raised, and the uncaught exception if
one was raised. -/
structure StepResult where
  st : Window
  effs : List Eff
  err : Option PyErr
deriving DecidableEq

/-- `do_countdown` (lines 43-53): assign a fresh pipe to `self.gui_pipe`,
assign a fresh started `Process(target=decrement, args=(10, process_pipe))` to
`self.countdown_thread`, then evaluate `self.parent.after(100, self.update)`.
The attribute `parent` was never assigned, so when it is absent the lookup
raises `AttributeError` after the pipe and process effects already happened. -/
def do_countdown (w : Window) : StepResult :=
  let w2 : Window :=
    { w with gui_pipe := some [], countdown_thread := some HandleStatus.alive }
  match w.parent with
  | some _ =>
      { st := w2
        effs := [Eff.createPipe, Eff.spawnProcess 10, Eff.afterMs 100 Callback.update]
        err := none }
  | none =>
      { st := w2
        effs := [Eff.createPipe, Eff.spawnProcess 10]
        err := some (PyErr.attributeError "parent") }

/-- Embedding of the Python f-string rendering of the non-negative integer
`num` on line 70 of `main.py`: most-significant-first decimal digits. The
digit list is computed by repeated division by 10, with `n` itself as fuel. -/
def decDigitsAux : Nat → Nat → List Nat
  | 0, _ => []
  | _ + 1, 0 => []
  | fuel + 1, n + 1 => decDigitsAux fuel ((n + 1) / 10) ++ [(n + 1) % 10]

/-- Most-significant-first decimal digits of `n`; `[]` for `0`. -/
def decDigits (n : Nat) : List Nat := decDigitsAux n n

/-- The character for a single decimal digit. -/
def digitChar : Nat → Char
  | 0 => '0'
  | 1 => '1'
  | 2 => '2'
  | 3 => '3'
  | 4 => '4'
  | 5 => '5'
  | 6 => '6'
  | 7 => '7'
  | 8 => '8'
  | 9 => '9'
  | _ => '*'

/-- The string produced by formatting the integer `n` in decimal. -/
def renderNat (n : Nat) : String :=
  if n = 0 then "0" else String.mk ((decDigits n).map digitChar)

/-- `update` (lines 57-74): `poll(1)` succeeds exactly when a message is
available; `recv()` pops the head.  On `0`: `join()` the stored handle, set the
label to "End!", schedule `clear_countdown_label` after 1000 ms, and do not
reschedule.  On a positive number: set the label to its decimal string and
reschedule `update` after 100 ms.  When `poll` yields nothing the `if` has no
else branch, so the method returns with no state change and no scheduling.
A `join()` on a `None` handle would raise `AttributeError` after the `recv`. -/
def update (w : Window) : StepResult :=
  match w.gui_pipe with
  | none => { st := w, effs := [], err := some (PyErr.attributeError "gui_pipe") }
  | some [] => { st := w, effs := [], err := none }
  | some (num :: rest) =>
      if num = 0 then
        match w.countdown_thread with
        | none =>
            { st := { w with gui_pipe := some rest }
              effs := []
              err := some (PyErr.attributeError "join") }
        | some _ =>
            { st := { w with gui_pipe := some rest
                             countdown_thread := some HandleStatus.joined
                             countdown_var := "End!" }
              effs := [Eff.joinThread, Eff.afterMs 1000 Callback.clear_countdown_label]
              err := none }
      else
        { st := { w with gui_pipe := some rest, countdown_var := renderNat num }
          effs := [Eff.afterMs 100 Callback.update]
          err := none }

/-- `clear_countdown_label` (lines 79-80): set the label variable to the empty
string; no scheduling, no exception. -/
def clear_countdown_label (w : Window) : StepResult :=
  { st := { w with countdown_var := "" }, effs := [], err := none }

/-- `on_close` (lines 85-93): if `self.countdown_thread != None` and the handle
`is_alive()`, `kill()` it; then `self.root.destroy()`. -/
def on_close (w : Window) : StepResult :=
  if (match w.countdown_thread with
      | some t => t.is_alive
      | none => false) then
    { st := { w with countdown_thread := some HandleStatus.killed }
      effs := [Eff.killThread, Eff.destroyRoot]
      err := none }
  else
    { st := w, effs := [Eff.destroyRoot], err := none }

/-- States of the `Window` object reachable from `__init__` under the four
methods, with the environment free to deliver any worker message into the
assigned pipe at any time. -/
inductive Reachable : Window → Prop
  | init : Reachable initWindow
  | click {w : Window} : Reachable w → Reachable (do_countdown w).st
  | tick {w : Window} : Reachable w → Reachable (update w).st
  | clear {w : Window} : Reachable w → Reachable (clear_countdown_label w).st
  | close {w : Window} : Reachable w → Reachable (on_close w).st
  | deliver {w : Window} {msgs : List Nat} (v : Nat) :
      Reachable w → w.gui_pipe = some msgs →
      Reachable { w with gui_pipe := some (msgs ++ [v]) }

/-- A string is the exact decimal representation of `v`: nonempty, every
character a decimal digit (hence no sign character), no leading zero, and
reading the digits back in base 10 yields `v`. -/
def isDecimalRepOf (s : String) (v : Nat) : Prop :=
  s.data ≠ [] ∧
  (∀ c ∈ s.data, '0' ≤ c ∧ c ≤ '9') ∧
  s.data.head? ≠ some '0' ∧
  Nat.ofDigits 10 ((s.data.map fun c => c.toNat - 48).reverse) = v

/-- A `Window` in the middle of a countdown whose pipe is momentarily empty. -/
def wEmptyPoll : Window :=
  { countdown_var := "5"
    countdown_thread := some HandleStatus.alive
    gui_pipe := some []
    parent := none }

/-- A `Window` in the middle of a countdown with messages still queued. -/
def wRunning : Window :=
  { countdown_var := "7"
    countdown_thread := some HandleStatus.alive
    gui_pipe := some [6, 5]
    parent := none }

/-- A `Window` whose pipe holds the terminal `0`. -/
def wTerminal : Window :=
  { countdown_var := "1"
    countdown_thread := some HandleStatus.alive
    gui_pipe := some [0]
    parent := none }

/-- A `Window` whose pipe head is the value `2`. -/
def wTwo : Window :=
  { countdown_var := "3"
    countdown_thread := some HandleStatus.alive
    gui_pipe := some [2]
    parent := none }

/-! ### Case lemmas for the method bodies -/

theorem update_pipe_nil {w : Window} (hp : w.gui_pipe = some []) :
    update w = { st := w, effs := [], err := none } := by
  unfold update
  rw [hp]

theorem update_pipe_zero {w : Window} {rest : List Nat} {h0 : HandleStatus}
    (hp : w.gui_pipe = some (0 :: rest)) (ht : w.countdown_thread = some h0) :
    update w =
      { st := { w with gui_pipe := some rest
                       countdown_thread := some HandleStatus.joined
                       countdown_var := "End!" }
        effs := [Eff.joinThread, Eff.afterMs 1000 Callback.clear_countdown_label]
        err := none } := by
  unfold update
  rw [hp, ht]
  rfl

theorem update_pipe_pos {w : Window} {num : Nat} {rest : List Nat}
    (hp : w.gui_pipe = some (num :: rest)) (hn : num ≠ 0) :
    update w =
      { st := { w with gui_pipe := some rest, countdown_var := renderNat num }
        effs := [Eff.afterMs 100 Callback.update]
        err := none } := by
  unfold update
  rw [hp]
  dsimp only
  rw [if_neg hn]

theorem do_countdown_st (w : Window) :
    (do_countdown w).st =
      { w with gui_pipe := some [], countdown_thread := some HandleStatus.alive } := by
  unfold do_countdown
  cases hpar : w.parent <;> rfl

theorem do_countdown_effs (w : Window) :
    (do_countdown w).effs = [Eff.createPipe, Eff.spawnProcess 10] ∨
    (do_countdown w).effs =
      [Eff.createPipe, Eff.spawnProcess 10, Eff.afterMs 100 Callback.update] := by
  unfold do_countdown
  cases hpar : w.parent
  · left; rfl
  · right; rfl

theorem on_close_eq (w : Window) :
    on_close w =
      if w.countdown_thread = some HandleStatus.alive then
        { st := { w with countdown_thread := some HandleStatus.killed }
          effs := [Eff.killThread, Eff.destroyRoot]
          err := none }
      else { st := w, effs := [Eff.destroyRoot], err := none } := by
  rcases ht : w.countdown_thread with _ | h
  · simp [on_close, ht]
  · cases h <;> simp [on_close, ht, HandleStatus.is_alive]

theorem update_var_cases (w : Window) :
    (update w).st.countdown_var = w.countdown_var ∨
    (update w).st.countdown_var = "End!" ∨
    ∃ v : Nat, v ≠ 0 ∧ (update w).st.countdown_var = renderNat v := by
  rcases hp : w.gui_pipe with _ | msgs
  · left
    unfold update
    rw [hp]
  · rcases msgs with _ | ⟨num, rest⟩
    · left
      rw [update_pipe_nil hp]
    · by_cases hn : num = 0
      · subst hn
        rcases ht : w.countdown_thread with _ | h0
        · left
          unfold update
          rw [hp, ht]
          rfl
        · right; left
          rw [update_pipe_zero hp ht]
      · right; right
        exact ⟨num, hn, by rw [update_pipe_pos hp hn]⟩

/-! ### Decimal rendering agrees with `Nat.digits` -/

theorem decDigitsAux_eq_digits (fuel : Nat) :
    ∀ n : Nat, n ≤ fuel → decDigitsAux fuel n = (Nat.digits 10 n).reverse := by
  induction fuel with
  | zero =>
      intro n hn
      interval_cases n
      simp [decDigitsAux]
  | succ f ih =>
      intro n hn
      match n with
      | 0 => simp [decDigitsAux]
      | m + 1 =>
          have hdiv : (m + 1) / 10 ≤ f := by
            have h1 : (m + 1) / 10 < m + 1 := Nat.div_lt_self (Nat.succ_pos m) (by norm_num)
            omega
          simp only [decDigitsAux]
          rw [ih _ hdiv, Nat.digits_def' (by norm_num : (1 : Nat) < 10) (Nat.succ_pos m)]
          simp

theorem decDigits_eq_digits (n : Nat) : decDigits n = (Nat.digits 10 n).reverse :=
  decDigitsAux_eq_digits n n le_rfl

theorem digitChar_bounds {d : Nat} (h : d < 10) :
    '0' ≤ digitChar d ∧ digitChar d ≤ '9' := by
  interval_cases d <;> decide

theorem digitChar_toNat_sub {d : Nat} (h : d < 10) : (digitChar d).toNat - 48 = d := by
  interval_cases d <;> decide

theorem digitChar_eq_zero_iff {d : Nat} (h : d < 10) : digitChar d = '0' ↔ d = 0 := by
  interval_cases d <;> decide

theorem map_digitChar_toNat_sub {l : List Nat} (hl : ∀ d ∈ l, d < 10) :
    (l.map fun d => (digitChar d).toNat - 48) = l := by
  induction l with
  | nil => rfl
  | cons a t iht =>
      simp only [List.map_cons]
      rw [digitChar_toNat_sub (hl a (by simp)),
          iht (fun d hd => hl d (by simp [hd]))]

theorem renderNat_isDecimalRepOf {v : Nat} (hv : v ≠ 0) :
    isDecimalRepOf (renderNat v) v := by
  have hdig : decDigits v = (Nat.digits 10 v).reverse := decDigits_eq_digits v
  have hne : Nat.digits 10 v ≠ [] := Nat.digits_ne_nil_iff_ne_zero.mpr hv
  have hlt : ∀ d ∈ Nat.digits 10 v, d < 10 := fun d hd =>
    Nat.digits_lt_base (by norm_num) hd
  rw [renderNat, if_neg hv]
  refine ⟨?_, ?_, ?_, ?_⟩
  · show (decDigits v).map digitChar ≠ []
    rw [hdig]
    simp [hne]
  · intro c hc
    have hc2 : c ∈ (decDigits v).map digitChar := hc
    rcases List.mem_map.mp hc2 with ⟨d, hd, rfl⟩
    rw [hdig] at hd
    exact digitChar_bounds (hlt d (List.mem_reverse.mp hd))
  · show ((decDigits v).map digitChar).head? ≠ some '0'
    rw [hdig, List.head?_map, List.head?_reverse,
        List.getLast?_eq_getLast _ hne]
    intro hcontra
    simp only [Option.map_some'] at hcontra
    have hg := Option.some.inj hcontra
    have hglt : (Nat.digits 10 v).getLast hne < 10 :=
      hlt _ (List.getLast_mem hne)
    exact Nat.getLast_digit_ne_zero 10 hv ((digitChar_eq_zero_iff hglt).mp hg)
  · show Nat.ofDigits 10
        ((((decDigits v).map digitChar).map fun c => c.toNat - 48).reverse) = v
    rw [List.map_map]
    have hco : ((fun c : Char => c.toNat - 48) ∘ digitChar)
        = fun d => (digitChar d).toNat - 48 := rfl
    rw [hco, hdig,
        map_digitChar_toNat_sub (fun d hd => hlt d (List.mem_reverse.mp hd)),
        List.reverse_reverse]
    exact Nat.ofDigits_digits 10 v

theorem renderNat_ne_zero_string {v : Nat} (hv : v ≠ 0) : renderNat v ≠ "0" := by
  intro hcontra
  have hspec := renderNat_isDecimalRepOf hv
  rw [hcontra] at hspec
  exact hspec.2.2.1 rfl

/-! ### The worker's send sequence -/

theorem decrement_eq_range (n : Nat) :
    decrement n = (List.range n).reverse ++ [0] := by
  induction n with
  | zero => rfl
  | succ m ih =>
      simp [decrement, ih, List.range_succ m]

theorem decrement_filter_pos (n : Nat) :
    ((decrement n).filter fun v => 0 < v).length = n - 1 := by
  induction n with
  | zero => rfl
  | succ m ih =>
      rcases m with _ | k
      · decide
      · have hdec : decrement (k + 2) = (k + 1) :: decrement (k + 1) := rfl
        rw [hdec, List.filter_cons]
        have hk : decide (0 < k + 1) = true := by simp
        rw [hk, if_pos rfl, List.length_cons, ih]
        omega

/-! ### Claim theorems -/

/-- C1: invoking `do_countdown` from the freshly initialized window does create
a fresh channel and spawn the worker with start value 10, retaining both as
object state — but the final statement `self.parent.after(100, self.update)`
raises `AttributeError` because `__init__` only ever assigns `self.root`, so
the first poll tick is never scheduled.  This contradicts the claim (and the
comment on lines 51-52 of `main.py` announcing a 100 ms screen update). -/
theorem do_countdown_crashes_no_tick :
    (do_countdown initWindow).st.gui_pipe = some [] ∧
    (do_countdown initWindow).st.countdown_thread = some HandleStatus.alive ∧
    (do_countdown initWindow).effs = [Eff.createPipe, Eff.spawnProcess 10] ∧
    (do_countdown initWindow).err = some (PyErr.attributeError "parent") :=
  ⟨rfl, rfl, rfl, rfl⟩

/-- C2 counterexample: on a poll tick with an empty pipe the displayed state is
indeed unchanged, but contrary to the claim no further poll tick is scheduled —
the `if` on line 58 of `main.py` has no else branch, so `update` performs no
effect at all. -/
theorem update_empty_poll_cex :
    (update wEmptyPoll).st.countdown_var = wEmptyPoll.countdown_var ∧
    Eff.afterMs 100 Callback.update ∉ (update wEmptyPoll).effs := by
  decide

/-- C2 amended: on a poll tick in which the bounded-wait receive yields no
message, the object state is entirely unchanged, no exception is raised, and
no effect — in particular no rescheduled poll tick — is performed. -/
theorem update_empty_poll (w : Window) (hp : w.gui_pipe = some []) :
    (update w).st = w ∧ (update w).effs = [] ∧ (update w).err = none := by
  rw [update_pipe_nil hp]
  exact ⟨rfl, rfl, rfl⟩

/-- C2 witness: the amended statement at a concrete mid-countdown window whose
pipe is momentarily empty. -/
theorem update_empty_poll_witness :
    (update wEmptyPoll).st = wEmptyPoll ∧ (update wEmptyPoll).effs = [] ∧
    (update wEmptyPoll).err = none :=
  update_empty_poll wEmptyPoll rfl

/-- C3 counterexample: for `start_num = 1` the worker sends `[0, 0]` — the
loop iteration that reaches zero already sends a `0` before the unconditional
trailing `0` — so the sends are not "`start_num` positive values followed by
exactly one terminal `0`": that would require one strictly positive value. -/
theorem decrement_pos_count_cex :
    ¬ ∃ pos : List Nat,
        decrement 1 = pos ++ [0] ∧ pos.length = 1 ∧
        List.Pairwise (· > ·) pos ∧ ∀ v ∈ pos, 0 < v := by
  rintro ⟨pos, h1, h2, -, h4⟩
  rcases List.length_eq_one.mp h2 with ⟨a, rfl⟩
  have hd : decrement 1 = [0, 0] := rfl
  rw [hd] at h1
  simp only [List.cons_append, List.nil_append, List.cons.injEq] at h1
  rcases h1 with ⟨rfl, -⟩
  exact lt_irrefl 0 (h4 0 (by simp))

/-- C3 amended: for every `start_num`, the worker sends the strictly
decreasing sequence `start_num - 1, ..., 1, 0` (the loop, one send per
decrement) followed by exactly one unconditional terminal `0` as the final
message; hence exactly `start_num - 1` of the sent values are positive, and
for `start_num = 0` only the single terminal `0` is sent. -/
theorem decrement_sends_characterization (n : Nat) :
    decrement n = (List.range n).reverse ++ [0] ∧
    List.Pairwise (· > ·) (List.range n).reverse ∧
    ((decrement n).filter fun v => 0 < v).length = n - 1 := by
  refine ⟨decrement_eq_range n, ?_, decrement_filter_pos n⟩
  exact List.pairwise_reverse.mpr (List.pairwise_lt_range n)

/-- C4: with start value 3 the worker sends exactly `2, 1, 0` in the loop and
then the unconditional trailing `0`, giving channel sequence `2, 1, 0, 0`;
with start value 0 the loop body never runs and only the trailing `0` is
sent. -/
theorem decrement_start3_start0 :
    decrement 3 = [2, 1, 0, 0] ∧ decrement 0 = [0] :=
  ⟨rfl, rfl⟩

/-- C5: a poll tick that receives the terminal `0` joins the worker, sets the
displayed state to "End!", schedules the one-shot label clear 1000 ms later,
raises nothing, and schedules no further poll tick. -/
theorem update_terminal_zero (w : Window) (rest : List Nat) (h0 : HandleStatus)
    (hp : w.gui_pipe = some (0 :: rest)) (ht : w.countdown_thread = some h0) :
    (update w).st.countdown_var = "End!" ∧
    (update w).st.countdown_thread = some HandleStatus.joined ∧
    (update w).effs = [Eff.joinThread, Eff.afterMs 1000 Callback.clear_countdown_label] ∧
    (update w).err = none ∧
    ∀ d : Nat, Eff.afterMs d Callback.update ∉ (update w).effs := by
  rw [update_pipe_zero hp ht]
  refine ⟨rfl, rfl, rfl, rfl, ?_⟩
  intro d hmem
  simp at hmem

/-- C5 witness: the terminal tick at a concrete window whose pipe holds `0`. -/
theorem update_terminal_zero_witness :
    (update wTerminal).st.countdown_var = "End!" ∧
    (update wTerminal).st.countdown_thread = some HandleStatus.joined ∧
    (update wTerminal).effs =
      [Eff.joinThread, Eff.afterMs 1000 Callback.clear_countdown_label] ∧
    (update wTerminal).err = none ∧
    ∀ d : Nat, Eff.afterMs d Callback.update ∉ (update wTerminal).effs :=
  update_terminal_zero wTerminal [] HandleStatus.alive rfl rfl

/-- C6: for every state, `on_close` kills the worker exactly when a handle
exists and is still alive, never joins it, schedules nothing, destroys the
window as its final effect, and raises no exception. -/
theorem on_close_spec (w : Window) :
    (on_close w).err = none ∧
    (Eff.killThread ∈ (on_close w).effs ↔
      w.countdown_thread = some HandleStatus.alive) ∧
    Eff.joinThread ∉ (on_close w).effs ∧
    (∀ (d : Nat) (c : Callback), Eff.afterMs d c ∉ (on_close w).effs) ∧
    (on_close w).effs.getLast? = some Eff.destroyRoot ∧
    (on_close w).st.countdown_thread =
      (if w.countdown_thread = some HandleStatus.alive then some HandleStatus.killed
       else w.countdown_thread) := by
  rw [on_close_eq w]
  by_cases ht : w.countdown_thread = some HandleStatus.alive <;> simp [ht]

/-- C7: `do_countdown` has no re-entry guard — invoked while a worker is
already alive it still installs a fresh empty pipe and a fresh alive worker
over the stored ones, and neither joins nor kills the previous worker. -/
theorem do_countdown_no_reentry_guard (w : Window) (msgs : List Nat)
    (_hrun : w.countdown_thread = some HandleStatus.alive)
    (_hp : w.gui_pipe = some msgs) :
    (do_countdown w).st.gui_pipe = some [] ∧
    (do_countdown w).st.countdown_thread = some HandleStatus.alive ∧
    Eff.createPipe ∈ (do_countdown w).effs ∧
    Eff.spawnProcess 10 ∈ (do_countdown w).effs ∧
    Eff.joinThread ∉ (do_countdown w).effs ∧
    Eff.killThread ∉ (do_countdown w).effs := by
  have hst := do_countdown_st w
  refine ⟨by rw [hst], by rw [hst], ?_, ?_, ?_, ?_⟩ <;>
    rcases do_countdown_effs w with heffs | heffs <;> rw [heffs] <;> simp

/-- C7 witness: a double start on a concrete running window with a nonempty
pipe. -/
theorem do_countdown_no_reentry_guard_witness :
    (do_countdown wRunning).st.gui_pipe = some [] ∧
    (do_countdown wRunning).st.countdown_thread = some HandleStatus.alive ∧
    Eff.createPipe ∈ (do_countdown wRunning).effs ∧
    Eff.spawnProcess 10 ∈ (do_countdown wRunning).effs ∧
    Eff.joinThread ∉ (do_countdown wRunning).effs ∧
    Eff.killThread ∉ (do_countdown wRunning).effs :=
  do_countdown_no_reentry_guard wRunning [6, 5] rfl rfl

/-- C8: a poll tick that receives a positive value sets the displayed state to
exactly the decimal string of that value — nonempty, all decimal digits (so no
sign), no leading zero, and reading the digits back yields the value. -/
theorem update_renders_decimal (w : Window) (v : Nat) (rest : List Nat)
    (hv : 0 < v) (hp : w.gui_pipe = some (v :: rest)) :
    (update w).st.countdown_var = renderNat v ∧ isDecimalRepOf (renderNat v) v := by
  have hvne : v ≠ 0 := Nat.pos_iff_ne_zero.mp hv
  rw [update_pipe_pos hp hvne]
  exact ⟨rfl, renderNat_isDecimalRepOf hvne⟩

/-- C8 witness: receiving the concrete value `2`. -/
theorem update_renders_decimal_witness :
    (update wTwo).st.countdown_var = renderNat 2 ∧ isDecimalRepOf (renderNat 2) 2 :=
  update_renders_decimal wTwo 2 [] (by decide) rfl

/-- C9: when the displayed state is already empty, `clear_countdown_label`
leaves the object exactly as it was, performs no effect (in particular no
scheduling), and raises nothing. -/
theorem clear_label_idempotent (w : Window) (h : w.countdown_var = "") :
    (clear_countdown_label w).st = w ∧ (clear_countdown_label w).effs = [] ∧
    (clear_countdown_label w).err = none := by
  refine ⟨?_, rfl, rfl⟩
  cases w
  simp only [clear_countdown_label] at h ⊢
  simp_all

/-- C9 witness: clearing the freshly initialized window, whose label is
already empty. -/
theorem clear_label_idempotent_witness :
    (clear_countdown_label initWindow).st = initWindow ∧
    (clear_countdown_label initWindow).effs = [] ∧
    (clear_countdown_label initWindow).err = none :=
  clear_label_idempotent initWindow rfl

/-- C10: in every state reachable from `__init__` under the four methods and
arbitrary worker deliveries, the displayed state is never the string "0": a
received `0` is routed to the "End!" branch, and every rendered value is
positive. -/
theorem displayed_never_zero {w : Window} (h : Reachable w) :
    w.countdown_var ≠ "0" := by
  induction h with
  | init => decide
  | click h ih =>
      rw [do_countdown_st]
      exact ih
  | tick h ih =>
      rcases update_var_cases _ with h1 | h1 | ⟨v, hv0, h1⟩ <;> rw [h1]
      · exact ih
      · decide
      · exact renderNat_ne_zero_string hv0
  | clear h ih =>
      show ("" : String) ≠ "0"
      decide
  | @close w2 h ih =>
      rw [on_close_eq]
      by_cases ht : w2.countdown_thread = some HandleStatus.alive <;>
        simp only [ht, if_pos, if_neg, if_true, if_false] <;> exact ih
  | deliver v h hp ih => exact ih

/-- C10 witness: the invariant at the initial window. -/
theorem displayed_never_zero_witness : initWindow.countdown_var ≠ "0" :=
  displayed_never_zero Reachable.init

end OopTk
